import Mathlib

/-!
Shallow embedding of the transskribo batch-transcription pipeline
(src/transskribo), covering the content-hash registry (hasher.py), the
output writer (output.py), the validator (validator.py) and the
orchestrator loop (cli.py).

JSON documents are modelled by the inductive `J`; Python dicts are
association lists with first-match lookup and in-place update, mirroring
Python's insertion-order-preserving dict semantics.  Python floats that
only carry durations/timestamps are modelled as `Int` seconds; exceptions
are modelled by `Except PyErr`, where `PyErr.exc` stands for an
`Exception`-derived error (caught by `except Exception`) and
`PyErr.interrupt` for `KeyboardInterrupt` (a `BaseException` that
`except Exception` does not catch).
-/

namespace Transskribo

/-- JSON-like values, the dynamic data model of the Python code. -/
inductive J where
  | null
  | bool (b : Bool)
  | num (n : Int)
  | str (s : String)
  | arr (elems : List J)
  | obj (fields : List (String × J))
deriving Repr

mutual

/-- Structural equality on JSON values (Python `==` between JSON-shaped
values). -/
def J.beq : J → J → Bool
  | .null, .null => true
  | .bool a, .bool b => a == b
  | .num a, .num b => a == b
  | .str a, .str b => a == b
  | .arr xs, .arr ys => J.beqList xs ys
  | .obj xs, .obj ys => J.beqFields xs ys
  | _, _ => false

def J.beqList : List J → List J → Bool
  | [], [] => true
  | x :: xs, y :: ys => J.beq x y && J.beqList xs ys
  | _, _ => false

def J.beqFields : List (String × J) → List (String × J) → Bool
  | [], [] => true
  | (k, v) :: xs, (k', v') :: ys => k == k' && J.beq v v' && J.beqFields xs ys
  | _, _ => false

end

/-- Python `value == "literal"` for a JSON value: true exactly when the
value is that string. -/
def jStrEq (v : J) (s : String) : Bool :=
  match v with
  | J.str s' => s' = s
  | _ => false

/-- Python `d[k]` on an insertion-ordered dict: first matching key. -/
def getKey {α : Type} : List (String × α) → String → Option α
  | [], _ => none
  | (k', v) :: rest, k => if k' = k then some v else getKey rest k

/-- Python `d[k] = v`: replace in place if the key exists, else append. -/
def setKey {α : Type} : List (String × α) → String → α → List (String × α)
  | [], k, v => [(k, v)]
  | (k', v') :: rest, k, v =>
      if k' = k then (k, v) :: rest else (k', v') :: setKey rest k v

/-- Python `del d[k]` / `unlink`: remove the key's binding. -/
def delKey {α : Type} : List (String × α) → String → List (String × α)
  | [], _ => []
  | (k', v') :: rest, k =>
      if k' = k then delKey rest k else (k', v') :: delKey rest k

/-- Python `d.get(k, default)`. -/
def getD (fields : List (String × J)) (k : String) (d : J) : J :=
  (getKey fields k).getD d

/-- Python exception classes relevant to control flow: `exc` is any
`Exception`-derived error, `interrupt` is `KeyboardInterrupt`. -/
inductive PyErr where
  | exc
  | interrupt
deriving DecidableEq, Repr

/-! ## hasher.py — registry data model -/

/-- Timing dict produced by `transcriber.process_file` (transcriber.py
lines 169-174): exactly the four stage durations. -/
structure Timing where
  transcribe_secs : Int
  align_secs : Int
  diarize_secs : Int
  total_secs : Int
deriving Repr

/-- Serialization of the timing dict as it is stored inside a registry
entry (a plain dict in the Python code). -/
def Timing.asdict (t : Timing) : List (String × J) :=
  [("transcribe_secs", J.num t.transcribe_secs),
   ("align_secs", J.num t.align_secs),
   ("diarize_secs", J.num t.diarize_secs),
   ("total_secs", J.num t.total_secs)]

/-- The `RegistryEntry` dataclass (hasher.py lines 13-23). -/
structure RegistryEntry where
  source_path : String
  output_path : String
  timestamp : String
  status : String
  duration_audio_secs : Option Int := none
  timing : Option Timing := none
  error : Option String := none
deriving Repr

/-- Model of `dataclasses.asdict` on a `RegistryEntry`: the JSON object stored in
the registry, fields in dataclass declaration order. -/
def RegistryEntry.asdict (e : RegistryEntry) : List (String × J) :=
  [("source_path", J.str e.source_path),
   ("output_path", J.str e.output_path),
   ("timestamp", J.str e.timestamp),
   ("status", J.str e.status),
   ("duration_audio_secs",
      match e.duration_audio_secs with | none => J.null | some d => J.num d),
   ("timing",
      match e.timing with | none => J.null | some t => J.obj t.asdict),
   ("error",
      match e.error with | none => J.null | some s => J.str s)]

/-- A registry entry as found in the on-disk JSON: an arbitrary object. -/
abbrev Entry := List (String × J)

/-- The registry: fingerprint → entry, a single JSON object. -/
abbrev Registry := List (String × Entry)

/-- Model of `lookup_hash` (hasher.py lines 59-66): return the entry only if the
hash is present and the entry's `status` equals `"success"`. -/
def lookup_hash (registry : Registry) (file_hash : String) : Option Entry :=
  match getKey registry file_hash with
  | some entry =>
      if jStrEq (getD entry "status" J.null) "success" then some entry
      else none
  | none => none

/-- Model of `register_hash` (hasher.py lines 69-91): upsert the serialized
dataclass under the fingerprint. -/
def register_hash (registry : Registry) (file_hash : String)
    (e : RegistryEntry) : Registry :=
  setKey registry file_hash e.asdict

/-! ## validator.py -/

/-- The `ValidationResult` dataclass (validator.py lines 12-18). -/
structure ValidationResult where
  is_valid : Bool
  duration_secs : Option Int
  error : Option String
deriving DecidableEq, Repr

/-- Outcome of the external ffprobe subprocess for one invocation
(oracle): `timeout` is `subprocess.TimeoutExpired`, `oserror` an
`OSError` launching the probe, and `completed` carries the exit code and
the parsed JSON object of stdout (`none` when stdout is not valid
JSON). -/
inductive ProbeOutcome where
  | timeout
  | oserror (msg : String)
  | completed (returncode : Int) (stdout : Option (List (String × J)))
deriving Repr

/-- Python `float(str(v))` for duration values, restricted to integer
seconds: succeeds on numbers and on strings spelling a natural number;
`None`, booleans, lists and objects make `float` raise, which the code
catches and treats as absence. -/
def pyFloatOfStr : J → Option Int
  | J.num n => some n
  | J.str s => s.toNat?.map Int.ofNat
  | _ => none

/-- Model of `_extract_duration` (validator.py lines 126-150): prefer the
container-level duration, fall back to the first audio stream's. -/
def _extract_duration (probe_data : List (String × J))
    (audio_streams : List (List (String × J))) : Option Int :=
  let fromFormat :=
    match getD probe_data "format" (J.obj []) with
    | J.obj fmt =>
        match getKey fmt "duration" with
        | some d => pyFloatOfStr d
        | none => none
    | _ => none
  match fromFormat with
  | some d => some d
  | none =>
      match audio_streams with
      | s :: _ =>
          match getKey s "duration" with
          | some d => pyFloatOfStr d
          | none => none
      | [] => none

/-- Model of `validate_file` (validator.py lines 29-123).  `size` is
`file_path.stat().st_size`; `probe` is the outcome the external probe
would produce if invoked.  Returns the result together with the number
of probe subprocess invocations performed (0 or 1).  Stream elements
that are not JSON objects are skipped here (the Python code would raise
on them; ffprobe always emits objects). -/
def validate_file (size : Nat) (probe : ProbeOutcome)
    (max_duration_hours : Int) : ValidationResult × Nat :=
  if size = 0 then
    (⟨false, none, some "Zero-length file"⟩, 0)
  else
    match probe with
    | .timeout => (⟨false, none, some "ffprobe timed out"⟩, 1)
    | .oserror msg => (⟨false, none, some ("ffprobe error: " ++ msg)⟩, 1)
    | .completed returncode stdout =>
      if returncode ≠ 0 then
        (⟨false, none,
          some "ffprobe failed — file may be corrupt or unreadable"⟩, 1)
      else
        match stdout with
        | none => (⟨false, none, some "ffprobe returned invalid JSON"⟩, 1)
        | some probe_data =>
          let streams := match getD probe_data "streams" (J.arr []) with
            | J.arr ss => ss
            | _ => []
          let audio_streams := streams.filterMap (fun s =>
            match s with
            | J.obj fields =>
                if jStrEq (getD fields "codec_type" J.null) "audio" then
                  some fields
                else none
            | _ => none)
          if audio_streams.isEmpty then
            (⟨false, none, some "No audio stream found"⟩, 1)
          else
            match _extract_duration probe_data audio_streams with
            | none => (⟨false, none, some "Could not determine duration"⟩, 1)
            | some duration_secs =>
              if max_duration_hours > 0 then
                if duration_secs > max_duration_hours * 3600 then
                  (⟨false, some duration_secs,
                    some ("Duration " ++ toString duration_secs ++
                      "s exceeds limit " ++ toString max_duration_hours ++
                      "h (" ++ toString (max_duration_hours * 3600) ++ "s)")⟩, 1)
                else (⟨true, some duration_secs, none⟩, 1)
              else (⟨true, some duration_secs, none⟩, 1)

/-! ## Atomic replace (save_registry, hasher.py 43-56; write_output, output.py 70-83)

Both functions share the same discipline: ensure the parent directory
exists, `mkstemp` a sibling `.tmp` file, `json.dump` into it, then
`Path.replace` (atomic rename) over the target; on any failure unlink
the temp file and re-raise.  `save_atomic` models one such call on the
target's directory, with byte strings as file contents. -/

/-- A directory: file name → byte content. -/
abbrev Dir := List (String × String)

/-- Failure injection for one atomic-write call.  `dump = .error b`
means `json.dump` raised after writing the prefix `b` into the temp
file; `.ok b` means the full serialization `b` was written. -/
structure WriteEnv where
  mkdirFails : Bool
  mkstempFails : Bool
  dump : Except String String
  replaceFails : Bool
deriving Repr

/-- The atomic write: returns the call's outcome and the directory
contents afterwards.  `tmp` is the fresh name `mkstemp` would pick. -/
def save_atomic (dir : Dir) (target tmp : String) (env : WriteEnv) :
    Except PyErr Unit × Dir :=
  if env.mkdirFails then (.error .exc, dir)
  else if env.mkstempFails then (.error .exc, dir)
  else
    -- mkstemp creates the (empty) uniquely named temp file
    let dir1 := setKey dir tmp ""
    match env.dump with
    | .error dumped =>
        -- dump raised mid-serialization; except-branch unlinks the temp file
        (.error .exc, delKey (setKey dir1 tmp dumped) tmp)
    | .ok bytes =>
        let dir2 := setKey dir1 tmp bytes
        if env.replaceFails then (.error .exc, delKey dir2 tmp)
        else (.ok (), delKey (setKey dir2 target bytes) tmp)

/-! ## output.py — result document construction and duplicate cloning -/

/-- Distinct-value count (Python `len(set(...))`) over JSON values under
structural equality. -/
def countDistinct : List J → Nat
  | [] => 0
  | x :: xs => (if xs.any (J.beq x) then 0 else 1) + countDistinct xs

/-- The per-word normalization of `build_output_document` (output.py
lines 31-40): rebuild each word entry with the five fixed keys, or
`.error` where the Python code raises on a non-dict word. -/
def normalizeWords : List J → Except PyErr (List J)
  | [] => .ok []
  | J.obj wf :: rest =>
      (match normalizeWords rest with
       | .error e => .error e
       | .ok rest' => .ok (J.obj
            [("start", getD wf "start" J.null),
             ("end", getD wf "end" J.null),
             ("word", getD wf "word" (J.str "")),
             ("score", getD wf "score" J.null),
             ("speaker", getD wf "speaker" J.null)] :: rest'))
  | _ :: _ => .error .exc

/-- The per-segment normalization loop of `build_output_document`
(output.py lines 29-48): returns the rebuilt segment list and the
flattened word list, or `.error` where the Python code raises on a
non-dict segment / non-list `words`. -/
def normalizeSegments : List J → Except PyErr (List J × List J)
  | [] => .ok ([], [])
  | J.obj seg :: rest =>
      (match getD seg "words" (J.arr []) with
       | J.arr ws =>
          (match normalizeWords ws with
           | .error e => .error e
           | .ok seg_words =>
              match normalizeSegments rest with
              | .error e => .error e
              | .ok (segs, all_words) =>
                  .ok (J.obj
                        [("start", getD seg "start" J.null),
                         ("end", getD seg "end" J.null),
                         ("text", getD seg "text" (J.str "")),
                         ("speaker", getD seg "speaker" J.null),
                         ("words", J.arr seg_words)] :: segs,
                       seg_words ++ all_words))
       | _ => .error .exc)
  | _ :: _ => .error .exc

/-- Model of `build_output_document` (output.py lines 12-67). -/
def build_output_document (result : J) (metadata : List (String × J)) :
    Except PyErr J :=
  match result with
  | J.obj fs =>
      (match getD fs "segments" (J.arr []) with
       | J.arr segments_raw =>
          (match normalizeSegments segments_raw with
           | .error e => .error e
           | .ok (segments, all_words) =>
              let speakers := segments.filterMap (fun s =>
                match s with
                | J.obj sf =>
                    match getD sf "speaker" J.null with
                    | J.null => none
                    | v => some v
                | _ => none)
              .ok (J.obj
                [("segments", J.arr segments),
                 ("words", J.arr all_words),
                 ("metadata", J.obj
                   [("source_file", getD metadata "source_file" J.null),
                    ("file_hash", getD metadata "file_hash" J.null),
                    ("duration_secs", getD metadata "duration_secs" J.null),
                    ("num_speakers", getD metadata "num_speakers"
                       (J.num (countDistinct speakers))),
                    ("model_size", getD metadata "model_size" J.null),
                    ("language", getD metadata "language" J.null),
                    ("processed_at", getD metadata "processed_at" J.null),
                    ("timing", getD metadata "timing" J.null)])]))
       | _ => .error .exc)
  | _ => .error .exc

/-- Model of `copy_duplicate_output` (output.py lines 86-106) over the
output-document store `fs` (path → parsed document).  Reads the existing
document, updates `metadata.source_file` and `metadata.processed_at`
when a `metadata` object is present, and writes the result to the target
path through the atomic-write path (modelled by `writeRaise`: on a raise
the store is unchanged, by the atomicity proved for `save_atomic`).
A document that is present but not a JSON object is modelled as a raise
(item assignment on a non-dict). -/
def copy_duplicate_output (fs : List (String × J))
    (source_output target_output : String) (new_source_file : String)
    (now : String) (writeRaise : Option PyErr) :
    Except PyErr (List (String × J)) :=
  match getKey fs source_output with
  | none => .error .exc              -- FileNotFoundError on open
  | some (J.obj fields) =>
      (match getKey fields "metadata" with
       | some (J.obj m) =>
          (match writeRaise with
           | some e => .error e
           | none => .ok (setKey fs target_output
               (J.obj (setKey fields "metadata"
                 (J.obj (setKey
                   (setKey m "source_file" (J.str new_source_file))
                   "processed_at" (J.str now)))))))
       | some _ => .error .exc       -- item assignment on a non-dict
       | none =>
          (match writeRaise with
           | some e => .error e
           | none => .ok (setKey fs target_output (J.obj fields))))
  | some _ => .error .exc            -- non-object document

/-! ## scanner.py and cli.py — orchestrator -/

/-- The `AudioFile` dataclass (scanner.py lines 16-23), paths as strings. -/
structure AudioFile where
  path : String
  relative_path : String
  output_path : String
  size_bytes : Nat
deriving DecidableEq, Repr

/-- The configuration fields the per-file processing actually reads. -/
structure TransskriboConfig where
  model_size : String
  language : String
deriving Repr

/-- Model of `filter_already_processed` (scanner.py lines 54-56): drop candidates
whose mirrored output path already exists. -/
def filter_already_processed (fs : List (String × J))
    (files : List AudioFile) : List AudioFile :=
  files.filter (fun f => !(getKey fs f.output_path).isSome)

/-- Model of `_get_failed_hashes` (cli.py lines 188-196), restricted to the key
set of the dict it builds — all that its caller consults.  A non-string
`source_path` becomes a non-string dict key in Python and can never
match `str(f.path)`, and a falsy (empty) one is skipped, so the string
keys collected here are exactly the ones membership can hit. -/
def _get_failed_hashes (registry : Registry) : List String :=
  registry.filterMap (fun p =>
    if jStrEq (getD p.2 "status" J.null) "failed" then
      match getD p.2 "source_path" (J.str "") with
      | J.str s => if s = "" then none else some s
      | _ => none
    else none)

/-- Result of the scan / filter / retry-failed phase (cli.py lines
214-243): the pending list and the "already processed" count. -/
structure PendingOutcome where
  pending : List AudioFile
  skipped_existing : Int
deriving Repr

/-- cli.py lines 224-228: among candidates that were filtered out
(`f not in pending_files`), those whose source path is in the failed
set. -/
def retryCandidates (registry : Registry) (fs : List (String × J))
    (all_files : List AudioFile) : List AudioFile :=
  (all_files.filter
      (fun f => decide (f ∉ filter_already_processed fs all_files))).filter
    (fun f => decide (f.path ∈ _get_failed_hashes registry))

/-- cli.py lines 215-236: filter out candidates with existing output,
then, under `--retry-failed`, re-admit (prepended) the filtered-out
candidates whose source path has a `failed` registry entry. -/
def computePending (retry_failed : Bool) (registry : Registry)
    (fs : List (String × J)) (all_files : List AudioFile) : PendingOutcome :=
  let pending_files := filter_already_processed fs all_files
  let skipped : Int := (all_files.length : Int) - (pending_files.length : Int)
  if retry_failed then
    let failed_sources := _get_failed_hashes registry
    if failed_sources.isEmpty then ⟨pending_files, skipped⟩
    else
      let retry_files := retryCandidates registry fs all_files
      if retry_files.isEmpty then ⟨pending_files, skipped⟩
      else ⟨retry_files ++ pending_files, skipped - retry_files.length⟩
  else ⟨pending_files, skipped⟩

/-- Result of `transcriber.process_file` (transcriber.py lines 129-185):
the final speaker-labelled result and the four-stage timing dict. -/
structure PipelineResult where
  result : J
  timing : Timing
deriving Repr

/-- Per-file oracle: the outcomes the environment would hand each
fallible or external operation in one iteration of the processing loop.
`now` stands for the `datetime.now(timezone.utc).isoformat()` values
taken during this file's handling. -/
structure FileEnv where
  hashResult : Except PyErr String       -- compute_hash(audio_file.path)
  pipeline : Except PyErr PipelineResult -- transcriber.process_file
  writeRaise : Option PyErr              -- write_output on the fresh path
  dupWriteRaise : Option PyErr           -- write_output inside copy_duplicate_output
  saveRaise : Option PyErr               -- save_registry after registering success
  rehashResult : Except PyErr String     -- compute_hash in the failure handler
  failSaveRaise : Option PyErr           -- save_registry in the failure handler
  now : String

/-- Durable state: the output documents on disk (path → parsed document)
and the last successfully saved registry. -/
structure World where
  fs : List (String × J)
  disk : Option Registry
deriving Repr

/-- Return value of `_process_single_file`. -/
inductive StepResult where
  | processed
  | duplicate
deriving DecidableEq, Repr

/-- What `_process_single_file` leaves behind: the outcome (return value
or escaping exception), the in-memory registry and world — Python
mutates these in place, so they survive an exception — and the number of
external-pipeline invocations made (0 or 1). -/
structure StepOut where
  outcome : Except PyErr StepResult
  registry : Registry
  world : World
  pipeCalls : Nat
deriving Repr

/-- Optional value to JSON (`None` becomes null). -/
def optIntJ : Option Int → J
  | none => J.null
  | some n => J.num n

/-- The metadata dict built on the fresh path (cli.py lines 431-440). -/
def freshMetadata (env : FileEnv) (file : AudioFile)
    (duration_secs : Option Int) (cfg : TransskriboConfig)
    (file_hash : String) (result_data : PipelineResult) : List (String × J) :=
  [("source_file", J.str file.path),
   ("file_hash", J.str file_hash),
   ("duration_secs", optIntJ duration_secs),
   ("model_size", J.str cfg.model_size),
   ("language", J.str cfg.language),
   ("processed_at", J.str env.now),
   ("timing", J.obj result_data.timing.asdict)]

/-- The fresh-transcription tail of `_process_single_file` (cli.py lines
420-462): invoke the pipeline, build and atomically write the document,
register a `success` entry carrying the timing, persist the registry. -/
def transcribeFresh (env : FileEnv) (file : AudioFile)
    (duration_secs : Option Int) (cfg : TransskriboConfig)
    (file_hash : String) (registry : Registry) (world : World) : StepOut :=
  match env.pipeline with
  | .error e => ⟨.error e, registry, world, 1⟩
  | .ok result_data =>
    match build_output_document result_data.result
        (freshMetadata env file duration_secs cfg file_hash result_data) with
    | .error e => ⟨.error e, registry, world, 1⟩
    | .ok document =>
      match env.writeRaise with
      | some e => ⟨.error e, registry, world, 1⟩  -- atomic: fs unchanged
      | none =>
        let world1 := { world with fs := setKey world.fs file.output_path document }
        let registry1 := register_hash registry file_hash
          { source_path := file.path, output_path := file.output_path,
            timestamp := env.now, status := "success",
            duration_audio_secs := duration_secs,
            timing := some result_data.timing, error := none }
        match env.saveRaise with
        | some e => ⟨.error e, registry1, world1, 1⟩
        | none =>
            ⟨.ok .processed, registry1,
             { world1 with disk := some registry1 }, 1⟩

/-- Model of `_process_single_file` (cli.py lines 378-462): fingerprint, duplicate
lookup, then either the clone-and-register duplicate path (when the
recorded output still exists) or the fresh-transcription tail. -/
def process_single_file (env : FileEnv) (file : AudioFile)
    (duration_secs : Option Int) (cfg : TransskriboConfig)
    (registry : Registry) (world : World) : StepOut :=
  match env.hashResult with
  | .error e => ⟨.error e, registry, world, 0⟩
  | .ok file_hash =>
    match lookup_hash registry file_hash with
    | some existing =>
      match getKey existing "output_path" with
      | some (J.str existing_output) =>
        if (getKey world.fs existing_output).isSome then
          match getKey existing "source_path" with
          | some _ =>  -- the log line interpolates existing["source_path"]
            match copy_duplicate_output world.fs existing_output
                file.output_path file.path env.now env.dupWriteRaise with
            | .error e => ⟨.error e, registry, world, 0⟩
            | .ok fs1 =>
              let world1 := { world with fs := fs1 }
              let registry1 := register_hash registry file_hash
                { source_path := file.path, output_path := file.output_path,
                  timestamp := env.now, status := "success",
                  duration_audio_secs := duration_secs,
                  timing := none, error := none }
              match env.saveRaise with
              | some e => ⟨.error e, registry1, world1, 0⟩
              | none =>
                  ⟨.ok .duplicate, registry1,
                   { world1 with disk := some registry1 }, 0⟩
          | none => ⟨.error .exc, registry, world, 0⟩  -- KeyError: source_path
        else
          transcribeFresh env file duration_secs cfg file_hash registry world
      | some _ => ⟨.error .exc, registry, world, 0⟩  -- Path(non-string) raises
      | none => ⟨.error .exc, registry, world, 0⟩    -- KeyError: output_path
    | none => transcribeFresh env file duration_secs cfg file_hash registry world

/-- Run-level oracle for the processing loop: the per-iteration file
environments, the shutdown flag as the boundary check at iteration `i`
would observe it, and the elapsed wall-clock seconds since loop start at
that check. -/
structure LoopEnv where
  fenv : Nat → FileEnv
  shutdownAt : Nat → Bool
  elapsedAt : Nat → Int
  maxFiles : Nat
  maxProcSecs : Int
  cfg : TransskriboConfig

/-- Mutable state of the processing loop (cli.py lines 287-361), plus
`escaped`: an exception that `except Exception` did not catch and that
is propagating out of the loop. -/
structure LoopState where
  registry : Registry
  world : World
  processed : Nat
  failed : Nat
  duplicates : Nat
  pipeCalls : Nat
  stopReason : Option String
  escaped : Option PyErr
deriving Repr

/-- The per-file failure handler (cli.py lines 338-359): count the
failure, re-compute the fingerprint, record a best-effort `failed` entry
and persist it; an `Exception` raised by that registration is only
logged, while a `KeyboardInterrupt` escapes. -/
def handleFailure (env : FileEnv) (file : AudioFile)
    (duration_secs : Option Int) (st : LoopState) : LoopState :=
  let st1 := { st with failed := st.failed + 1 }
  match env.rehashResult with
  | .error .interrupt => { st1 with escaped := some .interrupt }
  | .error .exc => st1  -- logged only, run continues
  | .ok file_hash =>
    let registry1 := register_hash st1.registry file_hash
      { source_path := file.path, output_path := file.output_path,
        timestamp := env.now, status := "failed",
        duration_audio_secs := duration_secs,
        timing := none, error := some "Processing error (see log)" }
    match env.failSaveRaise with
    | some .interrupt =>
        { st1 with registry := registry1, escaped := some .interrupt }
    | some .exc => { st1 with registry := registry1 }  -- logged only
    | none =>
        { st1 with
            registry := registry1,
            world := { st1.world with disk := some registry1 } }

/-- The try/except body of one loop iteration (cli.py lines 330-359):
run `_process_single_file`, count its outcome, catch any `Exception` at
the per-file boundary (routing it to the failure handler); a
`KeyboardInterrupt` is not caught and is left propagating (`escaped`).
Note the body takes no stop-condition inputs: the shutdown flag and the
limits cannot interrupt it mid-file. -/
def loopBody (lenv : LoopEnv) (i : Nat) (file : AudioFile)
    (duration_secs : Option Int) (st : LoopState) : LoopState :=
  let out := process_single_file (lenv.fenv i) file duration_secs
    lenv.cfg st.registry st.world
  let st1 := { st with
                 registry := out.registry, world := out.world,
                 pipeCalls := st.pipeCalls + out.pipeCalls }
  match out.outcome with
  | .ok .processed => { st1 with processed := st1.processed + 1 }
  | .ok .duplicate => { st1 with duplicates := st1.duplicates + 1 }
  | .error .interrupt => { st1 with escaped := some .interrupt }
  | .error .exc => handleFailure (lenv.fenv i) file duration_secs st1

/-- The processing loop (cli.py lines 307-361): at each file boundary
check, in order, the shutdown flag, the max-files limit and the
max-processing-time budget — any triggered check breaks out of the loop
with a stop reason; otherwise run the body for the file and continue,
unless an uncaught exception is propagating. -/
def processLoop (lenv : LoopEnv) :
    List (AudioFile × Option Int) → Nat → LoopState → LoopState
  | [], _, st => st
  | (file, duration_secs) :: rest, i, st =>
    if lenv.shutdownAt i then
      { st with stopReason := some "Stopped: interrupted by signal" }
    else if lenv.maxFiles > 0 ∧ st.processed ≥ lenv.maxFiles then
      { st with stopReason := some ("Stopped: max-files limit (" ++
          toString lenv.maxFiles ++ ") reached") }
    else if lenv.maxProcSecs > 0 ∧ lenv.elapsedAt i ≥ lenv.maxProcSecs then
      { st with
          stopReason := some "Stopped: max-processing-minutes limit exceeded" }
    else
      let st2 := loopBody lenv i file duration_secs st
      match st2.escaped with
      | some _ => st2
      | none => processLoop lenv rest (i + 1) st2

/-- Is this `Except` a propagating `KeyboardInterrupt`? -/
def isInterruptErr {α : Type} : Except PyErr α → Bool
  | .error .interrupt => true
  | _ => false

/-- None of the operations this environment feeds would deliver a
`KeyboardInterrupt` — every raise it can cause is an ordinary
`Exception`. -/
def FileEnv.interruptFree (e : FileEnv) : Bool :=
  !isInterruptErr e.hashResult && !isInterruptErr e.pipeline &&
  decide (e.writeRaise ≠ some .interrupt) &&
  decide (e.dupWriteRaise ≠ some .interrupt) &&
  decide (e.saveRaise ≠ some .interrupt) &&
  !isInterruptErr e.rehashResult &&
  decide (e.failSaveRaise ≠ some .interrupt)

/-- The batch summary block (cli.py lines 366-375). -/
structure Summary where
  label : String
  processed : Nat
  failed : Nat
  skipped : Int
  invalid : Nat
  duplicates : Nat
  stopReason : Option String
deriving DecidableEq, Repr

/-- Observation: a top-level key of a result document. -/
def docGet (d : J) (k : String) : Option J :=
  match d with
  | J.obj fields => getKey fields k
  | _ => none

/-- Observation: a key of a result document's `metadata` object. -/
def metaGet (d : J) (k : String) : Option J :=
  match docGet d "metadata" with
  | some (J.obj m) => getKey m k
  | _ => none

/-- How a call of `_run_pipeline_inner` ends. -/
inductive RunEnding where
  | noPending                    -- "No files to process. Exiting."
  | noValid                      -- "No valid files to process after validation."
  | dryRun (wouldCount : Nat)    -- the dry-run report
  | batchSummary (s : Summary)   -- the final Batch Summary block ran
  | uncaught (e : PyErr)         -- an exception escaped; nothing after it ran
deriving DecidableEq, Repr

/-- Did the run end by emitting the final batch summary? -/
def RunEnding.emittedSummary : RunEnding → Bool
  | .batchSummary _ => true
  | _ => false

/-- The validation pass (cli.py lines 250-263): keep the valid
candidates, pairing each with its probed duration. -/
def validFiles (validation : AudioFile → ValidationResult)
    (pending : List AudioFile) : List (AudioFile × Option Int) :=
  pending.filterMap (fun f =>
    if (validation f).is_valid then some (f, (validation f).duration_secs)
    else none)

/-- The loop counters at loop start (cli.py lines 287-291). -/
def initLoopState (registry : Registry) (world : World) : LoopState :=
  ⟨registry, world, 0, 0, 0, 0, none, none⟩

/-- Model of `_run_pipeline_inner` (cli.py lines 199-375): registry is already
loaded, `all_files` is the sorted scan result, `validation` gives each
candidate's validator outcome (probe behaviour folded in).  Returns how
the run ended together with the final loop state. -/
def run_pipeline_inner (lenv : LoopEnv) (retry_failed dry_run : Bool)
    (registry : Registry) (world : World) (all_files : List AudioFile)
    (validation : AudioFile → ValidationResult) : RunEnding × LoopState :=
  let po := computePending retry_failed registry world.fs all_files
  if po.pending.isEmpty then (.noPending, initLoopState registry world)
  else
    let valid_files := validFiles validation po.pending
    let invalid_count := po.pending.length - valid_files.length
    if valid_files.isEmpty then (.noValid, initLoopState registry world)
    else if dry_run then
      (.dryRun valid_files.length, initLoopState registry world)
    else
      let final := processLoop lenv valid_files 0
        (initLoopState registry world)
      match final.escaped with
      | some e => (.uncaught e, final)
      | none =>
          (.batchSummary
            { label := if final.stopReason.isSome then
                "Partial Batch Summary (interrupted)" else "Batch Summary",
              processed := final.processed, failed := final.failed,
              skipped := po.skipped_existing, invalid := invalid_count,
              duplicates := final.duplicates,
              stopReason := final.stopReason }, final)

/-! ## Helper lemmas on the association-list dict model -/

theorem getKey_setKey_self {α : Type} (d : List (String × α)) (k : String)
    (v : α) : getKey (setKey d k v) k = some v := by
  induction d with
  | nil => simp [setKey, getKey]
  | cons p rest ih =>
      obtain ⟨k', v'⟩ := p
      by_cases h : k' = k
      · simp [setKey, getKey, h]
      · simp [setKey, getKey, h, ih]

theorem getKey_setKey_ne {α : Type} (d : List (String × α)) (k k' : String)
    (v : α) (h : k' ≠ k) : getKey (setKey d k v) k' = getKey d k' := by
  induction d with
  | nil =>
      simp only [setKey, getKey]
      rw [if_neg (fun hh : k = k' => h hh.symm)]
  | cons p rest ih =>
      obtain ⟨k'', v''⟩ := p
      by_cases hk : k'' = k
      · subst hk
        simp only [setKey, if_pos rfl, getKey]
        rw [if_neg (fun hh : k'' = k' => h hh.symm),
          if_neg (fun hh : k'' = k' => h hh.symm)]
      · simp only [setKey, if_neg hk, getKey]
        by_cases hk' : k'' = k'
        · rw [if_pos hk', if_pos hk']
        · rw [if_neg hk', if_neg hk', ih]

theorem getKey_delKey_self {α : Type} (d : List (String × α)) (k : String) :
    getKey (delKey d k) k = none := by
  induction d with
  | nil => simp [delKey, getKey]
  | cons p rest ih =>
      obtain ⟨k', v'⟩ := p
      by_cases h : k' = k
      · rw [delKey, if_pos h]
        exact ih
      · rw [delKey, if_neg h, getKey, if_neg h]
        exact ih

theorem getKey_delKey_ne {α : Type} (d : List (String × α)) (k k' : String)
    (h : k' ≠ k) : getKey (delKey d k) k' = getKey d k' := by
  induction d with
  | nil => simp [delKey]
  | cons p rest ih =>
      obtain ⟨k'', v''⟩ := p
      by_cases hk : k'' = k
      · rw [delKey, if_pos hk, ih, getKey,
          if_neg (fun hh : k'' = k' => h (by rw [← hh]; exact hk))]
      · rw [delKey, if_neg hk, getKey, getKey]
        by_cases hk' : k'' = k'
        · rw [if_pos hk', if_pos hk']
        · rw [if_neg hk', if_neg hk', ih]

theorem jStrEq_iff (v : J) (s : String) : jStrEq v s = true ↔ v = J.str s := by
  cases v <;> simp [jStrEq]

/-! ## Helper lemmas on the per-file step and the loop -/

theorem interruptFree_parts {e : FileEnv} (h : e.interruptFree = true) :
    isInterruptErr e.hashResult = false ∧
    isInterruptErr e.pipeline = false ∧
    e.writeRaise ≠ some PyErr.interrupt ∧
    e.dupWriteRaise ≠ some PyErr.interrupt ∧
    e.saveRaise ≠ some PyErr.interrupt ∧
    isInterruptErr e.rehashResult = false ∧
    e.failSaveRaise ≠ some PyErr.interrupt := by
  simp only [FileEnv.interruptFree, Bool.and_eq_true, Bool.not_eq_true',
    decide_eq_true_eq] at h
  tauto

theorem normalizeWords_not_interrupt (ws : List J) :
    isInterruptErr (normalizeWords ws) = false := by
  induction ws with
  | nil => rfl
  | cons w rest ih =>
      cases w
      case obj wf =>
        cases hr : normalizeWords rest with
        | error e =>
            rw [hr] at ih
            cases e
            · simp [normalizeWords, hr, isInterruptErr]
            · exact Bool.noConfusion ih
        | ok rest' => simp [normalizeWords, hr, isInterruptErr]
      all_goals rfl

theorem normalizeSegments_not_interrupt (segs : List J) :
    isInterruptErr (normalizeSegments segs) = false := by
  induction segs with
  | nil => rfl
  | cons s rest ih =>
      cases s
      case obj seg =>
        cases hw : getD seg "words" (J.arr [])
        case arr ws =>
          cases hnw : normalizeWords ws with
          | error e =>
              have hni := normalizeWords_not_interrupt ws
              rw [hnw] at hni
              cases e
              · simp [normalizeSegments, hw, hnw, isInterruptErr]
              · exact Bool.noConfusion hni
          | ok seg_words =>
              cases hns : normalizeSegments rest with
              | error e =>
                  rw [hns] at ih
                  cases e
                  · simp [normalizeSegments, hw, hnw, hns, isInterruptErr]
                  · exact Bool.noConfusion ih
              | ok p =>
                  obtain ⟨segs', words'⟩ := p
                  simp [normalizeSegments, hw, hnw, hns, isInterruptErr]
        all_goals simp [normalizeSegments, hw, isInterruptErr]
      all_goals rfl

theorem build_output_document_not_interrupt (result : J)
    (metadata : List (String × J)) :
    isInterruptErr (build_output_document result metadata) = false := by
  cases result
  case obj fs =>
    cases hsr : getD fs "segments" (J.arr [])
    case arr segments_raw =>
      cases hns : normalizeSegments segments_raw with
      | error e =>
          have hni := normalizeSegments_not_interrupt segments_raw
          rw [hns] at hni
          cases e
          · simp [build_output_document, hsr, hns, isInterruptErr]
          · exact Bool.noConfusion hni
      | ok p =>
          obtain ⟨segments, all_words⟩ := p
          simp [build_output_document, hsr, hns, isInterruptErr]
    all_goals simp [build_output_document, hsr, isInterruptErr]
  all_goals rfl

theorem copy_duplicate_output_not_interrupt (fs : List (String × J))
    (so tgt nsf now : String) (wr : Option PyErr)
    (hw : wr ≠ some PyErr.interrupt) :
    isInterruptErr (copy_duplicate_output fs so tgt nsf now wr) = false := by
  cases hg : getKey fs so with
  | none => simp [copy_duplicate_output, hg, isInterruptErr]
  | some d =>
      cases d
      case obj fields =>
        cases hm : getKey fields "metadata" with
        | none =>
            cases hwr : wr with
            | none => simp [copy_duplicate_output, hg, hm, hwr, isInterruptErr]
            | some e =>
                cases e
                · simp [copy_duplicate_output, hg, hm, hwr, isInterruptErr]
                · exact absurd hwr hw
        | some m =>
            cases m
            case obj mf =>
              cases hwr : wr with
              | none =>
                  simp [copy_duplicate_output, hg, hm, hwr, isInterruptErr]
              | some e =>
                  cases e
                  · simp [copy_duplicate_output, hg, hm, hwr, isInterruptErr]
                  · exact absurd hwr hw
            all_goals simp [copy_duplicate_output, hg, hm, isInterruptErr]
      all_goals simp [copy_duplicate_output, hg, isInterruptErr]

theorem transcribeFresh_not_interrupt (env : FileEnv) (file : AudioFile)
    (d : Option Int) (cfg : TransskriboConfig) (file_hash : String)
    (registry : Registry) (world : World)
    (hp : isInterruptErr env.pipeline = false)
    (hw : env.writeRaise ≠ some PyErr.interrupt)
    (hs : env.saveRaise ≠ some PyErr.interrupt) :
    isInterruptErr
      (transcribeFresh env file d cfg file_hash registry world).outcome =
      false := by
  cases hpe : env.pipeline with
  | error e =>
      rw [hpe] at hp
      cases e
      · simp [transcribeFresh, hpe, isInterruptErr]
      · exact Bool.noConfusion hp
  | ok rd =>
      cases hb : build_output_document rd.result
          (freshMetadata env file d cfg file_hash rd) with
      | error e =>
          have hni := build_output_document_not_interrupt rd.result
            (freshMetadata env file d cfg file_hash rd)
          rw [hb] at hni
          cases e
          · simp [transcribeFresh, hpe, hb, isInterruptErr]
          · exact Bool.noConfusion hni
      | ok document =>
          cases hwr : env.writeRaise with
          | some e =>
              cases e
              · simp [transcribeFresh, hpe, hb, hwr, isInterruptErr]
              · exact absurd hwr hw
          | none =>
              cases hsr : env.saveRaise with
              | some e =>
                  cases e
                  · simp [transcribeFresh, hpe, hb, hwr, hsr, isInterruptErr]
                  · exact absurd hsr hs
              | none => simp [transcribeFresh, hpe, hb, hwr, hsr, isInterruptErr]

theorem psf_not_interrupt (env : FileEnv) (file : AudioFile) (d : Option Int)
    (cfg : TransskriboConfig) (registry : Registry) (world : World)
    (hh : isInterruptErr env.hashResult = false)
    (hp : isInterruptErr env.pipeline = false)
    (hw : env.writeRaise ≠ some PyErr.interrupt)
    (hdw : env.dupWriteRaise ≠ some PyErr.interrupt)
    (hs : env.saveRaise ≠ some PyErr.interrupt) :
    isInterruptErr
      (process_single_file env file d cfg registry world).outcome = false := by
  cases hhr : env.hashResult with
  | error e =>
      rw [hhr] at hh
      cases e
      · simp [process_single_file, hhr, isInterruptErr]
      · exact Bool.noConfusion hh
  | ok file_hash =>
      cases hl : lookup_hash registry file_hash with
      | none =>
          simp only [process_single_file, hhr, hl]
          exact transcribeFresh_not_interrupt env file d cfg file_hash
            registry world hp hw hs
      | some existing =>
          cases ho : getKey existing "output_path" with
          | none => simp [process_single_file, hhr, hl, ho, isInterruptErr]
          | some v =>
              cases v
              case str so =>
                by_cases hex : (getKey world.fs so).isSome
                · cases hsp : getKey existing "source_path" with
                  | none =>
                      simp [process_single_file, hhr, hl, ho, hex, hsp,
                        isInterruptErr]
                  | some sv =>
                      cases hcp : copy_duplicate_output world.fs so
                          file.output_path file.path env.now
                          env.dupWriteRaise with
                      | error e =>
                          have hni := copy_duplicate_output_not_interrupt
                            world.fs so file.output_path file.path env.now
                            env.dupWriteRaise hdw
                          rw [hcp] at hni
                          cases e
                          · simp [process_single_file, hhr, hl, ho, hex,
                              hsp, hcp, isInterruptErr]
                          · exact Bool.noConfusion hni
                      | ok fs1 =>
                          cases hsr : env.saveRaise with
                          | some e =>
                              cases e
                              · simp [process_single_file, hhr, hl, ho,
                                  hex, hsp, hcp, hsr, isInterruptErr]
                              · exact absurd hsr hs
                          | none =>
                              simp [process_single_file, hhr, hl, ho, hex,
                                hsp, hcp, hsr, isInterruptErr]
                · simp only [process_single_file, hhr, hl, ho, hex,
                    if_neg hex, Bool.false_eq_true]
                  exact transcribeFresh_not_interrupt env file d cfg
                    file_hash registry world hp hw hs
              all_goals simp [process_single_file, hhr, hl, ho, isInterruptErr]

theorem handleFailure_escaped (env : FileEnv) (file : AudioFile)
    (d : Option Int) (st : LoopState)
    (h1 : isInterruptErr env.rehashResult = false)
    (h2 : env.failSaveRaise ≠ some PyErr.interrupt) :
    (handleFailure env file d st).escaped = st.escaped := by
  cases hr : env.rehashResult with
  | error e =>
      rw [hr] at h1
      cases e
      · simp [handleFailure, hr]
      · exact Bool.noConfusion h1
  | ok file_hash =>
      cases hf : env.failSaveRaise with
      | none => simp [handleFailure, hr, hf]
      | some e =>
          cases e
          · simp [handleFailure, hr, hf]
          · exact absurd hf h2

theorem handleFailure_stopReason (env : FileEnv) (file : AudioFile)
    (d : Option Int) (st : LoopState) :
    (handleFailure env file d st).stopReason = st.stopReason := by
  cases hr : env.rehashResult with
  | error e => cases e <;> simp [handleFailure, hr]
  | ok file_hash =>
      cases hf : env.failSaveRaise with
      | none => simp [handleFailure, hr, hf]
      | some e => cases e <;> simp [handleFailure, hr, hf]

theorem loopBody_stopReason (lenv : LoopEnv) (i : Nat) (file : AudioFile)
    (d : Option Int) (st : LoopState) :
    (loopBody lenv i file d st).stopReason = st.stopReason := by
  cases hout : (process_single_file (lenv.fenv i) file d lenv.cfg
      st.registry st.world).outcome with
  | ok r => cases r <;> simp [loopBody, hout]
  | error e =>
      cases e
      · simp only [loopBody, hout]
        rw [handleFailure_stopReason]
      · simp [loopBody, hout]

theorem loopBody_escaped (lenv : LoopEnv) (i : Nat) (file : AudioFile)
    (d : Option Int) (st : LoopState)
    (hIF : (lenv.fenv i).interruptFree = true) :
    (loopBody lenv i file d st).escaped = st.escaped := by
  obtain ⟨hh, hp, hw, hdw, hs, hr, hfs⟩ := interruptFree_parts hIF
  cases hout : (process_single_file (lenv.fenv i) file d lenv.cfg
      st.registry st.world).outcome with
  | ok r => cases r <;> simp [loopBody, hout]
  | error e =>
      cases e
      · simp only [loopBody, hout]
        rw [handleFailure_escaped _ _ _ _ hr hfs]
      · have hni := psf_not_interrupt (lenv.fenv i) file d lenv.cfg
          st.registry st.world hh hp hw hdw hs
        rw [hout] at hni
        exact Bool.noConfusion hni

theorem processLoop_escaped (lenv : LoopEnv)
    (hIF : ∀ j, (lenv.fenv j).interruptFree = true) :
    ∀ (files : List (AudioFile × Option Int)) (i : Nat) (st : LoopState),
      (processLoop lenv files i st).escaped = st.escaped := by
  intro files
  induction files with
  | nil => intro i st; rfl
  | cons p rest ih =>
      intro i st
      obtain ⟨file, d⟩ := p
      by_cases h1 : lenv.shutdownAt i
      · simp [processLoop, h1]
      · by_cases h2 : lenv.maxFiles > 0 ∧ st.processed ≥ lenv.maxFiles
        · simp [processLoop, h1, h2]
        · by_cases h3 : lenv.maxProcSecs > 0 ∧
              lenv.elapsedAt i ≥ lenv.maxProcSecs
          · simp [processLoop, h1, h2, h3]
          · have hb := loopBody_escaped lenv i file d st (hIF i)
            simp only [processLoop, if_neg h1, if_neg h2, if_neg h3]
            cases hesc : (loopBody lenv i file d st).escaped with
            | some e => rw [← hb, hesc]
            | none => rw [ih, hb]

/-- C7: for every registry mapping and fingerprint, `lookup_hash` returns
the stored entry iff an entry for that fingerprint is present and its
`status` equals `"success"`; an entry whose status is `"failed"` is
never returned, so failed attempts are cache misses for deduplication
(hasher.py lines 59-66). -/
theorem lookup_hash_success_only (registry : Registry) (file_hash : String) :
    (∀ e, lookup_hash registry file_hash = some e ↔
        (getKey registry file_hash = some e ∧
         getD e "status" J.null = J.str "success")) ∧
    (∀ e, getKey registry file_hash = some e →
        getD e "status" J.null = J.str "failed" →
        lookup_hash registry file_hash = none) := by
  have key : ∀ entry, getKey registry file_hash = some entry →
      lookup_hash registry file_hash =
        (if jStrEq (getD entry "status" J.null) "success" then some entry
         else none) := by
    intro entry hg
    unfold lookup_hash
    rw [hg]
  have keyn : getKey registry file_hash = none →
      lookup_hash registry file_hash = none := by
    intro hg
    unfold lookup_hash
    rw [hg]
  constructor
  · intro e
    cases hg : getKey registry file_hash with
    | none =>
        rw [keyn hg]
        constructor
        · intro h; simp at h
        · rintro ⟨hg', _⟩; simp at hg'
    | some entry =>
        rw [key entry hg]
        by_cases hs : jStrEq (getD entry "status" J.null) "success" = true
        · rw [if_pos hs]
          constructor
          · intro h
            cases h
            exact ⟨rfl, (jStrEq_iff _ _).mp hs⟩
          · rintro ⟨hg', _⟩
            exact hg'
        · rw [if_neg hs]
          constructor
          · intro h; simp at h
          · rintro ⟨hg', hs'⟩
            cases hg'
            exact absurd ((jStrEq_iff _ _).mpr hs') hs
  · intro e hg hf
    rw [key e hg, if_neg]
    intro hs
    rw [(jStrEq_iff _ _).mp hs] at hf
    simp at hf

/-- C7 witness: a registry whose only entry for the fingerprint has
status `failed` yields a cache miss. -/
theorem lookup_hash_success_only_witness :
    lookup_hash [("h1", [("status", J.str "failed")])] "h1" = none :=
  (lookup_hash_success_only [("h1", [("status", J.str "failed")])] "h1").2
    [("status", J.str "failed")] rfl rfl

/-- C9: a zero-byte file is rejected immediately with error exactly
"Zero-length file", a null duration, and zero probe subprocess
invocations, whatever the probe would have answered
(validator.py lines 42-46). -/
theorem validate_file_zero_length (probe : ProbeOutcome)
    (max_duration_hours : Int) :
    validate_file 0 probe max_duration_hours =
      (⟨false, none, some "Zero-length file"⟩, 0) := rfl

/-- C8: every registry entry the system writes is the serialized
`RegistryEntry` dataclass with exactly the seven fields
`source_path, output_path, timestamp, status, duration_audio_secs,
timing, error` (the spec's `*_seconds` names denote the code's `*_secs`
keys), a non-null `timing` serializes to exactly the four stage
durations, and the fresh success path records precisely the timing
object returned by the external pipeline (hasher.py lines 13-23, 69-91;
transcriber.py lines 169-174; cli.py lines 444-454). -/
theorem registry_entry_fields :
    (∀ e : RegistryEntry, e.asdict.map Prod.fst =
        ["source_path", "output_path", "timestamp", "status",
         "duration_audio_secs", "timing", "error"]) ∧
    (∀ (e : RegistryEntry) (t : Timing), e.timing = some t →
        getKey e.asdict "timing" = some (J.obj t.asdict) ∧
        t.asdict.map Prod.fst =
          ["transcribe_secs", "align_secs", "diarize_secs", "total_secs"]) ∧
    (∀ env file duration_secs cfg file_hash registry world result_data,
        env.pipeline = Except.ok result_data →
        (transcribeFresh env file duration_secs cfg file_hash registry
            world).outcome = Except.ok StepResult.processed →
        (transcribeFresh env file duration_secs cfg file_hash registry
            world).registry = register_hash registry file_hash
          { source_path := file.path, output_path := file.output_path,
            timestamp := env.now, status := "success",
            duration_audio_secs := duration_secs,
            timing := some result_data.timing, error := none }) := by
  refine ⟨fun e => rfl, fun e t h => ?_, ?_⟩
  · obtain ⟨sp, op, ts, stt, dd, tm, er⟩ := e
    cases h
    exact ⟨rfl, rfl⟩
  · intro env file duration_secs cfg file_hash registry world result_data
      hpipe hout
    cases hbuild : build_output_document result_data.result
        (freshMetadata env file duration_secs cfg file_hash result_data) with
    | error e =>
        simp [transcribeFresh, hpipe, hbuild] at hout
    | ok document =>
        cases hw : env.writeRaise with
        | some e =>
            simp [transcribeFresh, hpipe, hbuild, hw] at hout
        | none =>
            cases hs : env.saveRaise with
            | some e =>
                simp [transcribeFresh, hpipe, hbuild, hw, hs] at hout
            | none =>
                simp [transcribeFresh, hpipe, hbuild, hw, hs]

/-- C8 witness: a concrete fresh-path run records exactly the pipeline's
timing in the new entry. -/
theorem registry_entry_fields_witness :
    (transcribeFresh
        ⟨Except.ok "h0",
         Except.ok ⟨J.obj [("segments", J.arr [])], ⟨1, 2, 3, 4⟩⟩,
         none, none, none, Except.ok "h0", none, "t0"⟩
        ⟨"in/a.mp3", "a.mp3", "out/a.json", 5⟩ (some 9) ⟨"large-v2", "de"⟩
        "h0" [] ⟨[], none⟩).registry =
      register_hash [] "h0"
        { source_path := "in/a.mp3", output_path := "out/a.json",
          timestamp := "t0", status := "success",
          duration_audio_secs := some 9,
          timing := some ⟨1, 2, 3, 4⟩, error := none } :=
  registry_entry_fields.2.2
    ⟨Except.ok "h0",
     Except.ok ⟨J.obj [("segments", J.arr [])], ⟨1, 2, 3, 4⟩⟩,
     none, none, none, Except.ok "h0", none, "t0"⟩
    ⟨"in/a.mp3", "a.mp3", "out/a.json", 5⟩ (some 9) ⟨"large-v2", "de"⟩
    "h0" [] ⟨[], none⟩ ⟨J.obj [("segments", J.arr [])], ⟨1, 2, 3, 4⟩⟩
    rfl rfl

/-- C4: the registry save (and the identical output write) first ensures
the parent directory exists, writes the full serialization to a sibling
temp file, then atomically renames it over the target; on any failure
during the write the temp file is removed, the target keeps its prior
bytes (or stays absent), and the exception propagates to the caller
(save_registry, hasher.py lines 43-56; write_output, output.py lines
70-83).  `hfresh`/`hne` encode mkstemp's guarantee of a fresh sibling
name. -/
theorem save_atomic_keeps_target (dir : Dir) (target tmp : String)
    (env : WriteEnv) (hfresh : getKey dir tmp = none) (hne : tmp ≠ target) :
    (∀ e, (save_atomic dir target tmp env).1 = Except.error e →
        (getKey (save_atomic dir target tmp env).2 target =
            getKey dir target ∧
         getKey (save_atomic dir target tmp env).2 tmp = none)) ∧
    (∀ bytes, env.dump = Except.ok bytes →
        (save_atomic dir target tmp env).1 = Except.ok () →
        (getKey (save_atomic dir target tmp env).2 target = some bytes ∧
         getKey (save_atomic dir target tmp env).2 tmp = none)) := by
  have hne' : target ≠ tmp := fun hh => hne hh.symm
  constructor
  · intro e herr
    by_cases h1 : env.mkdirFails
    · simp [save_atomic, if_pos h1, hfresh]
    · by_cases h2 : env.mkstempFails
      · simp [save_atomic, if_neg h1, if_pos h2, hfresh]
      · cases hd : env.dump with
        | error dumped =>
            simp only [save_atomic, if_neg h1, if_neg h2, hd]
            refine ⟨?_, getKey_delKey_self _ _⟩
            rw [getKey_delKey_ne _ _ _ hne', getKey_setKey_ne _ _ _ _ hne',
              getKey_setKey_ne _ _ _ _ hne']
        | ok bytes =>
            by_cases h3 : env.replaceFails
            · simp only [save_atomic, if_neg h1, if_neg h2, hd, if_pos h3]
              refine ⟨?_, getKey_delKey_self _ _⟩
              rw [getKey_delKey_ne _ _ _ hne', getKey_setKey_ne _ _ _ _ hne',
                getKey_setKey_ne _ _ _ _ hne']
            · exfalso
              simp [save_atomic, if_neg h1, if_neg h2, hd, if_neg h3] at herr
  · intro bytes hd hok
    by_cases h1 : env.mkdirFails
    · simp [save_atomic, if_pos h1] at hok
    · by_cases h2 : env.mkstempFails
      · simp [save_atomic, if_neg h1, if_pos h2] at hok
      · by_cases h3 : env.replaceFails
        · simp [save_atomic, if_neg h1, if_neg h2, hd, if_pos h3] at hok
        · simp only [save_atomic, if_neg h1, if_neg h2, hd, if_neg h3]
          constructor
          · rw [getKey_delKey_ne _ _ _ hne', getKey_setKey_self]
          · exact getKey_delKey_self _ _

/-- C4 witness: a dump that raises mid-serialization leaves the old
target bytes in place, leaves no temp file behind, and the call fails. -/
theorem save_atomic_keeps_target_witness :
    getKey (save_atomic [("registry.json", "old")] "registry.json"
        "tmp123.tmp" ⟨false, false, Except.error "partial", false⟩).2
      "registry.json" = getKey [("registry.json", "old")] "registry.json" ∧
    getKey (save_atomic [("registry.json", "old")] "registry.json"
        "tmp123.tmp" ⟨false, false, Except.error "partial", false⟩).2
      "tmp123.tmp" = none :=
  (save_atomic_keeps_target [("registry.json", "old")] "registry.json"
    "tmp123.tmp" ⟨false, false, Except.error "partial", false⟩ rfl
    (by decide)).1 PyErr.exc rfl

/-- C5: the three independent early-stop conditions — pending external
shutdown signal, max successfully-processed count (`0` = unlimited), max
wall-clock budget since loop start (`0` = unlimited) — are evaluated only
at file boundaries, in that order, before starting each file; a
triggered condition breaks the loop recording only the run's stop reason
(counts, registry, world untouched — not a failure); when none triggers,
the body runs for the file and reads no stop-condition input at all, so
the in-flight file always completes; with no signal and both limits `0`
the loop never stops early (cli.py lines 290-292, 307-327). -/
theorem early_stop_file_boundaries (lenv : LoopEnv) (file : AudioFile)
    (duration_secs : Option Int) (rest : List (AudioFile × Option Int))
    (i : Nat) (st : LoopState) :
    (lenv.shutdownAt i = true →
      processLoop lenv ((file, duration_secs) :: rest) i st =
        { st with stopReason := some "Stopped: interrupted by signal" }) ∧
    (lenv.shutdownAt i = false →
      lenv.maxFiles > 0 → st.processed ≥ lenv.maxFiles →
      processLoop lenv ((file, duration_secs) :: rest) i st =
        { st with stopReason := some ("Stopped: max-files limit (" ++
            toString lenv.maxFiles ++ ") reached") }) ∧
    (lenv.shutdownAt i = false →
      ¬(lenv.maxFiles > 0 ∧ st.processed ≥ lenv.maxFiles) →
      lenv.maxProcSecs > 0 → lenv.elapsedAt i ≥ lenv.maxProcSecs →
      processLoop lenv ((file, duration_secs) :: rest) i st =
        { st with
            stopReason := some "Stopped: max-processing-minutes limit exceeded" }) ∧
    (lenv.shutdownAt i = false →
      ¬(lenv.maxFiles > 0 ∧ st.processed ≥ lenv.maxFiles) →
      ¬(lenv.maxProcSecs > 0 ∧ lenv.elapsedAt i ≥ lenv.maxProcSecs) →
      processLoop lenv ((file, duration_secs) :: rest) i st =
        (match (loopBody lenv i file duration_secs st).escaped with
         | some _ => loopBody lenv i file duration_secs st
         | none => processLoop lenv rest (i + 1)
             (loopBody lenv i file duration_secs st))) ∧
    (∀ lenv' : LoopEnv, lenv'.fenv = lenv.fenv → lenv'.cfg = lenv.cfg →
      loopBody lenv' i file duration_secs st =
        loopBody lenv i file duration_secs st) ∧
    ((∀ j, lenv.shutdownAt j = false) → lenv.maxFiles = 0 →
      lenv.maxProcSecs = 0 →
      ∀ (files : List (AudioFile × Option Int)) (i' : Nat)
        (st' : LoopState),
        (processLoop lenv files i' st').stopReason = st'.stopReason) := by
  refine ⟨?_, ?_, ?_, ?_, ?_, ?_⟩
  · intro h1
    simp only [processLoop, if_pos h1]
  · intro h1 h2 h3
    simp only [processLoop]
    rw [if_neg (by simp [h1]), if_pos ⟨h2, h3⟩]
  · intro h1 h2 h3 h4
    simp only [processLoop]
    rw [if_neg (by simp [h1]), if_neg h2, if_pos ⟨h3, h4⟩]
  · intro h1 h2 h3
    simp only [processLoop]
    rw [if_neg (by simp [h1]), if_neg h2, if_neg h3]
  · intro lenv' hf hc
    simp only [loopBody, handleFailure, hf, hc]
  · intro hsh hmf hmp files
    induction files with
    | nil => intro i' st'; rfl
    | cons p rest' ih =>
        intro i' st'
        obtain ⟨f, d⟩ := p
        simp only [processLoop, if_neg (by simp [hsh i'] :
            ¬lenv.shutdownAt i' = true),
          if_neg (by simp [hmf] :
            ¬(lenv.maxFiles > 0 ∧ st'.processed ≥ lenv.maxFiles)),
          if_neg (by simp [hmp] :
            ¬(lenv.maxProcSecs > 0 ∧ lenv.elapsedAt i' ≥ lenv.maxProcSecs))]
        cases hesc : (loopBody lenv i' f d st').escaped with
        | some e => rw [loopBody_stopReason]
        | none => rw [ih, loopBody_stopReason]

/-- C5 witness: with the flag set at the boundary, the loop stops before
the file, recording the signal stop reason and nothing else. -/
theorem early_stop_file_boundaries_witness :
    processLoop
      { fenv := fun _ =>
          ⟨Except.error PyErr.exc, Except.error PyErr.exc, none, none,
           none, Except.error PyErr.exc, none, "t0"⟩,
        shutdownAt := fun _ => true, elapsedAt := fun _ => 0,
        maxFiles := 0, maxProcSecs := 0, cfg := ⟨"large-v2", "de"⟩ }
      [(⟨"in/a.mp3", "a.mp3", "out/a.json", 5⟩, some 10)] 0
      ⟨[], ⟨[], none⟩, 0, 0, 0, 0, none, none⟩ =
      { (⟨[], ⟨[], none⟩, 0, 0, 0, 0, none, none⟩ : LoopState) with
          stopReason := some "Stopped: interrupted by signal" } :=
  (early_stop_file_boundaries
    { fenv := fun _ =>
        ⟨Except.error PyErr.exc, Except.error PyErr.exc, none, none,
         none, Except.error PyErr.exc, none, "t0"⟩,
      shutdownAt := fun _ => true, elapsedAt := fun _ => 0,
      maxFiles := 0, maxProcSecs := 0, cfg := ⟨"large-v2", "de"⟩ }
    ⟨"in/a.mp3", "a.mp3", "out/a.json", 5⟩ (some 10) [] 0
    ⟨[], ⟨[], none⟩, 0, 0, 0, 0, none, none⟩).1 rfl

/-- C1: any `Exception` raised by fingerprinting, the external pipeline
call or the output-write step is caught at the per-file boundary and
routed to the failure handler; the handler counts the file failed and
records a best-effort `failed` registry entry under the re-computed
fingerprint, persisting it; if the failure registration itself raises an
`Exception` it is only logged; the loop then proceeds to the next file,
and no per-file `Exception` ever terminates the run (cli.py lines
330-361). -/
theorem per_file_failure_isolation (lenv : LoopEnv) (file : AudioFile)
    (duration_secs : Option Int) (rest : List (AudioFile × Option Int))
    (i : Nat) (st : LoopState) :
    ((process_single_file (lenv.fenv i) file duration_secs lenv.cfg
        st.registry st.world).outcome = Except.error PyErr.exc →
      loopBody lenv i file duration_secs st =
        handleFailure (lenv.fenv i) file duration_secs
          { st with
              registry := (process_single_file (lenv.fenv i) file
                duration_secs lenv.cfg st.registry st.world).registry,
              world := (process_single_file (lenv.fenv i) file
                duration_secs lenv.cfg st.registry st.world).world,
              pipeCalls := st.pipeCalls + (process_single_file (lenv.fenv i)
                file duration_secs lenv.cfg st.registry st.world).pipeCalls }) ∧
    (∀ env : FileEnv,
      (handleFailure env file duration_secs st).failed = st.failed + 1) ∧
    (∀ (env : FileEnv) (file_hash : String),
      env.rehashResult = Except.ok file_hash →
      getKey (handleFailure env file duration_secs st).registry file_hash =
        some (RegistryEntry.asdict
          { source_path := file.path, output_path := file.output_path,
            timestamp := env.now, status := "failed",
            duration_audio_secs := duration_secs, timing := none,
            error := some "Processing error (see log)" }) ∧
      (env.failSaveRaise = none →
        (handleFailure env file duration_secs st).world.disk =
          some (handleFailure env file duration_secs st).registry)) ∧
    (∀ env : FileEnv, env.rehashResult = Except.error PyErr.exc →
      handleFailure env file duration_secs st =
        { st with failed := st.failed + 1 }) ∧
    (∀ (env : FileEnv) (file_hash : String),
      env.rehashResult = Except.ok file_hash →
      env.failSaveRaise = some PyErr.exc →
      (handleFailure env file duration_secs st).escaped = st.escaped) ∧
    (lenv.shutdownAt i = false →
      ¬(lenv.maxFiles > 0 ∧ st.processed ≥ lenv.maxFiles) →
      ¬(lenv.maxProcSecs > 0 ∧ lenv.elapsedAt i ≥ lenv.maxProcSecs) →
      (loopBody lenv i file duration_secs st).escaped = none →
      processLoop lenv ((file, duration_secs) :: rest) i st =
        processLoop lenv rest (i + 1)
          (loopBody lenv i file duration_secs st)) ∧
    ((∀ j, (lenv.fenv j).interruptFree = true) →
      ∀ (files : List (AudioFile × Option Int)) (i' : Nat)
        (st' : LoopState),
        (processLoop lenv files i' st').escaped = st'.escaped) := by
  refine ⟨?_, ?_, ?_, ?_, ?_, ?_, processLoop_escaped lenv⟩
  · intro hout
    simp only [loopBody, hout]
  · intro env
    cases hr : env.rehashResult with
    | error e => cases e <;> simp [handleFailure, hr]
    | ok fh =>
        cases hf : env.failSaveRaise with
        | none => simp [handleFailure, hr, hf]
        | some e => cases e <;> simp [handleFailure, hr, hf]
  · intro env file_hash hr
    cases hf : env.failSaveRaise with
    | none =>
        refine ⟨?_, fun _ => ?_⟩
        · simp only [handleFailure, hr, hf, register_hash]
          exact getKey_setKey_self _ _ _
        · simp [handleFailure, hr, hf]
    | some e =>
        refine ⟨?_, fun hn => ?_⟩
        · simp only [handleFailure, hr, hf, register_hash]
          cases e <;> exact getKey_setKey_self _ _ _
        · exact Option.noConfusion hn
  · intro env hr
    simp [handleFailure, hr]
  · intro env file_hash hr hf
    simp [handleFailure, hr, hf]
  · intro h1 h2 h3 hesc
    simp only [processLoop, if_neg (by simp [h1] :
        ¬lenv.shutdownAt i = true), if_neg h2, if_neg h3, hesc]

/-- C1 witness: a concrete file whose fingerprinting raises is counted
failed and a `failed` entry under the re-computed fingerprint lands in
the registry. -/
theorem per_file_failure_isolation_witness :
    (handleFailure
        ⟨Except.error PyErr.exc, Except.error PyErr.exc, none, none, none,
         Except.ok "h9", none, "t1"⟩
        ⟨"in/a.mp3", "a.mp3", "out/a.json", 5⟩ (some 7)
        ⟨[], ⟨[], none⟩, 0, 0, 0, 0, none, none⟩).failed = 1 ∧
    getKey (handleFailure
        ⟨Except.error PyErr.exc, Except.error PyErr.exc, none, none, none,
         Except.ok "h9", none, "t1"⟩
        ⟨"in/a.mp3", "a.mp3", "out/a.json", 5⟩ (some 7)
        ⟨[], ⟨[], none⟩, 0, 0, 0, 0, none, none⟩).registry "h9" =
      some (RegistryEntry.asdict
        { source_path := "in/a.mp3", output_path := "out/a.json",
          timestamp := "t1", status := "failed",
          duration_audio_secs := some 7, timing := none,
          error := some "Processing error (see log)" }) :=
  ⟨(per_file_failure_isolation
      { fenv := fun _ =>
          ⟨Except.error PyErr.exc, Except.error PyErr.exc, none, none, none,
           Except.ok "h9", none, "t1"⟩,
        shutdownAt := fun _ => false, elapsedAt := fun _ => 0,
        maxFiles := 0, maxProcSecs := 0, cfg := ⟨"large-v2", "de"⟩ }
      ⟨"in/a.mp3", "a.mp3", "out/a.json", 5⟩ (some 7) [] 0
      ⟨[], ⟨[], none⟩, 0, 0, 0, 0, none, none⟩).2.1
      ⟨Except.error PyErr.exc, Except.error PyErr.exc, none, none, none,
       Except.ok "h9", none, "t1"⟩,
   ((per_file_failure_isolation
      { fenv := fun _ =>
          ⟨Except.error PyErr.exc, Except.error PyErr.exc, none, none, none,
           Except.ok "h9", none, "t1"⟩,
        shutdownAt := fun _ => false, elapsedAt := fun _ => 0,
        maxFiles := 0, maxProcSecs := 0, cfg := ⟨"large-v2", "de"⟩ }
      ⟨"in/a.mp3", "a.mp3", "out/a.json", 5⟩ (some 7) [] 0
      ⟨[], ⟨[], none⟩, 0, 0, 0, 0, none, none⟩).2.2.1
      ⟨Except.error PyErr.exc, Except.error PyErr.exc, none, none, none,
       Except.ok "h9", none, "t1"⟩ "h9" rfl).1⟩

/-- C6 counterexample: a forced interrupt (second signal, which the
handler turns into a raised `KeyboardInterrupt`) delivered during file
processing is not caught by the per-file `except Exception` and escapes
`_run_pipeline_inner` before the batch-summary block runs: this concrete
run ends with an uncaught interrupt and emits no summary, refuting the
claim that the summary is emitted regardless of a forced interrupt. -/
theorem run_summary_forced_interrupt_cex :
    (run_pipeline_inner
      { fenv := fun _ =>
          ⟨Except.error PyErr.interrupt, Except.error PyErr.exc, none, none,
           none, Except.error PyErr.exc, none, "t0"⟩,
        shutdownAt := fun _ => false, elapsedAt := fun _ => 0,
        maxFiles := 0, maxProcSecs := 0, cfg := ⟨"large-v2", "de"⟩ }
      false false [] ⟨[], none⟩
      [⟨"in/a.mp3", "a.mp3", "out/a.json", 5⟩]
      (fun _ => ⟨true, some 10, none⟩)).1 =
        RunEnding.uncaught PyErr.interrupt ∧
    (run_pipeline_inner
      { fenv := fun _ =>
          ⟨Except.error PyErr.interrupt, Except.error PyErr.exc, none, none,
           none, Except.error PyErr.exc, none, "t0"⟩,
        shutdownAt := fun _ => false, elapsedAt := fun _ => 0,
        maxFiles := 0, maxProcSecs := 0, cfg := ⟨"large-v2", "de"⟩ }
      false false [] ⟨[], none⟩
      [⟨"in/a.mp3", "a.mp3", "out/a.json", 5⟩]
      (fun _ => ⟨true, some 10, none⟩)).1.emittedSummary = false :=
  ⟨rfl, rfl⟩

/-- C6 amended: every run of the batch pipeline that enters the
processing loop (pending and valid candidates exist, not a dry run)
emits the final batch summary unless a forced interrupt (an escaping
`KeyboardInterrupt`) terminates it; in particular natural completion and
graceful (single-signal) early stop always emit the summary, labeled
partial exactly when the run was interrupted (stop reason recorded)
(cli.py lines 363-375, 160-172). -/
theorem run_summary_unless_forced (lenv : LoopEnv) (retry_failed : Bool)
    (registry : Registry) (world : World) (all_files : List AudioFile)
    (validation : AudioFile → ValidationResult) (ending : RunEnding)
    (final : LoopState)
    (hIF : ∀ j, (lenv.fenv j).interruptFree = true)
    (hrun : run_pipeline_inner lenv retry_failed false registry world
        all_files validation = (ending, final))
    (hnp : ending ≠ RunEnding.noPending)
    (hnv : ending ≠ RunEnding.noValid) :
    ∃ s, ending = RunEnding.batchSummary s ∧
      s.label = (if s.stopReason.isSome then
        "Partial Batch Summary (interrupted)" else "Batch Summary") ∧
      s.stopReason = final.stopReason := by
  simp only [run_pipeline_inner] at hrun
  by_cases hp : (computePending retry_failed registry world.fs
      all_files).pending.isEmpty = true
  · rw [if_pos hp] at hrun
    injection hrun with h1 h2
    exact absurd h1.symm hnp
  · rw [if_neg hp] at hrun
    by_cases hv : (validFiles validation (computePending retry_failed
        registry world.fs all_files).pending).isEmpty = true
    · rw [if_pos hv] at hrun
      injection hrun with h1 h2
      exact absurd h1.symm hnv
    · rw [if_neg hv, if_neg (by simp : ¬((false : Bool) = true))] at hrun
      have hesc : (processLoop lenv (validFiles validation
          (computePending retry_failed registry world.fs
            all_files).pending) 0
          (initLoopState registry world)).escaped = none :=
        processLoop_escaped lenv hIF _ _ _
      rw [hesc] at hrun
      injection hrun with h1 h2
      refine ⟨_, h1.symm, rfl, ?_⟩
      rw [← h2]

/-- C6 amended witness: an interrupt-free single-file run emits the
batch summary. -/
theorem run_summary_unless_forced_witness :
    ∃ s, (run_pipeline_inner
        { fenv := fun _ =>
            ⟨Except.ok "h0",
             Except.ok ⟨J.obj [("segments", J.arr [])], ⟨1, 2, 3, 4⟩⟩,
             none, none, none, Except.ok "h0", none, "t0"⟩,
          shutdownAt := fun _ => false, elapsedAt := fun _ => 0,
          maxFiles := 0, maxProcSecs := 0, cfg := ⟨"large-v2", "de"⟩ }
        false false [] ⟨[], none⟩
        [⟨"in/a.mp3", "a.mp3", "out/a.json", 5⟩]
        (fun _ => ⟨true, some 10, none⟩)).1 = RunEnding.batchSummary s ∧
      s.label = (if s.stopReason.isSome then
        "Partial Batch Summary (interrupted)" else "Batch Summary") ∧
      s.stopReason = (run_pipeline_inner
        { fenv := fun _ =>
            ⟨Except.ok "h0",
             Except.ok ⟨J.obj [("segments", J.arr [])], ⟨1, 2, 3, 4⟩⟩,
             none, none, none, Except.ok "h0", none, "t0"⟩,
          shutdownAt := fun _ => false, elapsedAt := fun _ => 0,
          maxFiles := 0, maxProcSecs := 0, cfg := ⟨"large-v2", "de"⟩ }
        false false [] ⟨[], none⟩
        [⟨"in/a.mp3", "a.mp3", "out/a.json", 5⟩]
        (fun _ => ⟨true, some 10, none⟩)).2.stopReason :=
  run_summary_unless_forced
    { fenv := fun _ =>
        ⟨Except.ok "h0",
         Except.ok ⟨J.obj [("segments", J.arr [])], ⟨1, 2, 3, 4⟩⟩,
         none, none, none, Except.ok "h0", none, "t0"⟩,
      shutdownAt := fun _ => false, elapsedAt := fun _ => 0,
      maxFiles := 0, maxProcSecs := 0, cfg := ⟨"large-v2", "de"⟩ }
    false [] ⟨[], none⟩
    [⟨"in/a.mp3", "a.mp3", "out/a.json", 5⟩]
    (fun _ => ⟨true, some 10, none⟩) _ _
    (fun _ => rfl) rfl (by decide) (by decide)

/-- C2: a candidate whose fingerprint matches an existing success entry
whose output file exists never invokes the external pipeline (zero
invocations); it produces a cloned output document through the
atomic-write path in which `metadata.source_file` is the new candidate's
path and `metadata.processed_at` the current timestamp while `segments`
and `words` equal the existing document's; then a new success entry for
that fingerprint is recorded with the new source path and persisted
(cli.py lines 390-418; output.py lines 86-106). -/
theorem duplicate_clone_path (env : FileEnv) (file : AudioFile)
    (duration_secs : Option Int) (cfg : TransskriboConfig)
    (registry : Registry) (world : World) (file_hash : String)
    (existing : Entry) (existing_output : String) (srcVal : J)
    (docFields mFields : List (String × J))
    (h1 : env.hashResult = Except.ok file_hash)
    (h2 : lookup_hash registry file_hash = some existing)
    (h3 : getKey existing "output_path" = some (J.str existing_output))
    (h4 : getKey existing "source_path" = some srcVal)
    (h5 : getKey world.fs existing_output = some (J.obj docFields))
    (h6 : getKey docFields "metadata" = some (J.obj mFields))
    (h7 : env.dupWriteRaise = none)
    (h8 : env.saveRaise = none) :
    (process_single_file env file duration_secs cfg registry world).outcome =
        Except.ok StepResult.duplicate ∧
    (process_single_file env file duration_secs cfg registry
        world).pipeCalls = 0 ∧
    (∃ newDoc,
      getKey (process_single_file env file duration_secs cfg registry
          world).world.fs file.output_path = some newDoc ∧
      docGet newDoc "segments" = getKey docFields "segments" ∧
      docGet newDoc "words" = getKey docFields "words" ∧
      metaGet newDoc "source_file" = some (J.str file.path) ∧
      metaGet newDoc "processed_at" = some (J.str env.now)) ∧
    getKey (process_single_file env file duration_secs cfg registry
        world).registry file_hash =
      some (RegistryEntry.asdict
        { source_path := file.path, output_path := file.output_path,
          timestamp := env.now, status := "success",
          duration_audio_secs := duration_secs, timing := none,
          error := none }) ∧
    (process_single_file env file duration_secs cfg registry
        world).world.disk =
      some (process_single_file env file duration_secs cfg registry
        world).registry := by
  have hex : (getKey world.fs existing_output).isSome = true := by
    rw [h5]; rfl
  have hcp : copy_duplicate_output world.fs existing_output file.output_path
      file.path env.now env.dupWriteRaise =
      Except.ok (setKey world.fs file.output_path (J.obj (setKey docFields
        "metadata" (J.obj (setKey (setKey mFields "source_file"
          (J.str file.path)) "processed_at" (J.str env.now)))))) := by
    simp only [copy_duplicate_output, h5, h6, h7]
  have hpsf : process_single_file env file duration_secs cfg registry world =
      ⟨Except.ok StepResult.duplicate,
       register_hash registry file_hash
         { source_path := file.path, output_path := file.output_path,
           timestamp := env.now, status := "success",
           duration_audio_secs := duration_secs, timing := none,
           error := none },
       ⟨setKey world.fs file.output_path (J.obj (setKey docFields
          "metadata" (J.obj (setKey (setKey mFields "source_file"
            (J.str file.path)) "processed_at" (J.str env.now))))),
        some (register_hash registry file_hash
          { source_path := file.path, output_path := file.output_path,
            timestamp := env.now, status := "success",
            duration_audio_secs := duration_secs, timing := none,
            error := none })⟩, 0⟩ := by
    simp only [process_single_file, h1, h2, h3, h4, hex, hcp, h8, if_true]
  rw [hpsf]
  refine ⟨rfl, rfl, ⟨_, getKey_setKey_self _ _ _, ?_, ?_, ?_, ?_⟩, ?_, rfl⟩
  · simp only [docGet]
    exact getKey_setKey_ne _ _ _ _ (by decide)
  · simp only [docGet]
    exact getKey_setKey_ne _ _ _ _ (by decide)
  · simp only [metaGet, docGet, getKey_setKey_self]
    rw [getKey_setKey_ne _ _ _ _ (by decide), getKey_setKey_self]
  · simp only [metaGet, docGet, getKey_setKey_self]
  · simp only [register_hash]
    exact getKey_setKey_self _ _ _

/-- C2 witness: a concrete duplicate is satisfied with zero pipeline
invocations and the documented metadata rewrite. -/
theorem duplicate_clone_path_witness :
    (process_single_file
        ⟨Except.ok "h0", Except.error PyErr.exc, none, none, none,
         Except.ok "h0", none, "t2"⟩
        ⟨"in/b.mp3", "b.mp3", "out/b.json", 5⟩ (some 9) ⟨"large-v2", "de"⟩
        [("h0", [("status", J.str "success"),
                 ("source_path", J.str "in/a.mp3"),
                 ("output_path", J.str "out/a.json")])]
        ⟨[("out/a.json", J.obj [("segments", J.arr []),
            ("words", J.arr []),
            ("metadata", J.obj [("source_file", J.str "in/a.mp3")])])],
         none⟩).outcome = Except.ok StepResult.duplicate ∧
    (process_single_file
        ⟨Except.ok "h0", Except.error PyErr.exc, none, none, none,
         Except.ok "h0", none, "t2"⟩
        ⟨"in/b.mp3", "b.mp3", "out/b.json", 5⟩ (some 9) ⟨"large-v2", "de"⟩
        [("h0", [("status", J.str "success"),
                 ("source_path", J.str "in/a.mp3"),
                 ("output_path", J.str "out/a.json")])]
        ⟨[("out/a.json", J.obj [("segments", J.arr []),
            ("words", J.arr []),
            ("metadata", J.obj [("source_file", J.str "in/a.mp3")])])],
         none⟩).pipeCalls = 0 :=
  ⟨(duplicate_clone_path
      ⟨Except.ok "h0", Except.error PyErr.exc, none, none, none,
       Except.ok "h0", none, "t2"⟩
      ⟨"in/b.mp3", "b.mp3", "out/b.json", 5⟩ (some 9) ⟨"large-v2", "de"⟩
      [("h0", [("status", J.str "success"),
               ("source_path", J.str "in/a.mp3"),
               ("output_path", J.str "out/a.json")])]
      ⟨[("out/a.json", J.obj [("segments", J.arr []),
          ("words", J.arr []),
          ("metadata", J.obj [("source_file", J.str "in/a.mp3")])])],
       none⟩
      "h0" [("status", J.str "success"),
            ("source_path", J.str "in/a.mp3"),
            ("output_path", J.str "out/a.json")]
      "out/a.json" (J.str "in/a.mp3")
      [("segments", J.arr []), ("words", J.arr []),
       ("metadata", J.obj [("source_file", J.str "in/a.mp3")])]
      [("source_file", J.str "in/a.mp3")]
      rfl rfl rfl rfl rfl rfl rfl rfl).1,
   (duplicate_clone_path
      ⟨Except.ok "h0", Except.error PyErr.exc, none, none, none,
       Except.ok "h0", none, "t2"⟩
      ⟨"in/b.mp3", "b.mp3", "out/b.json", 5⟩ (some 9) ⟨"large-v2", "de"⟩
      [("h0", [("status", J.str "success"),
               ("source_path", J.str "in/a.mp3"),
               ("output_path", J.str "out/a.json")])]
      ⟨[("out/a.json", J.obj [("segments", J.arr []),
          ("words", J.arr []),
          ("metadata", J.obj [("source_file", J.str "in/a.mp3")])])],
       none⟩
      "h0" [("status", J.str "success"),
            ("source_path", J.str "in/a.mp3"),
            ("output_path", J.str "out/a.json")]
      "out/a.json" (J.str "in/a.mp3")
      [("segments", J.arr []), ("words", J.arr []),
       ("metadata", J.obj [("source_file", J.str "in/a.mp3")])]
      [("source_file", J.str "in/a.mp3")]
      rfl rfl rfl rfl rfl rfl rfl rfl).2.1⟩

/-- C10: a candidate whose fingerprint matches a success entry whose
recorded `output_path` no longer exists does not take the
duplicate-clone path: it invokes the full external pipeline (exactly
once), writes a new output document at the candidate's mirrored path,
and overwrites that fingerprint's registry entry with a fresh success
outcome, persisted (cli.py lines 393-426). -/
theorem stale_success_entry_reprocessed (env : FileEnv) (file : AudioFile)
    (duration_secs : Option Int) (cfg : TransskriboConfig)
    (registry : Registry) (world : World) (file_hash : String)
    (existing : Entry) (existing_output : String)
    (result_data : PipelineResult) (document : J)
    (h1 : env.hashResult = Except.ok file_hash)
    (h2 : lookup_hash registry file_hash = some existing)
    (h3 : getKey existing "output_path" = some (J.str existing_output))
    (h4 : getKey world.fs existing_output = none)
    (h5 : env.pipeline = Except.ok result_data)
    (h6 : build_output_document result_data.result
        (freshMetadata env file duration_secs cfg file_hash result_data) =
        Except.ok document)
    (h7 : env.writeRaise = none)
    (h8 : env.saveRaise = none) :
    (process_single_file env file duration_secs cfg registry world).outcome =
        Except.ok StepResult.processed ∧
    (process_single_file env file duration_secs cfg registry
        world).pipeCalls = 1 ∧
    getKey (process_single_file env file duration_secs cfg registry
        world).world.fs file.output_path = some document ∧
    getKey (process_single_file env file duration_secs cfg registry
        world).registry file_hash =
      some (RegistryEntry.asdict
        { source_path := file.path, output_path := file.output_path,
          timestamp := env.now, status := "success",
          duration_audio_secs := duration_secs,
          timing := some result_data.timing, error := none }) ∧
    (process_single_file env file duration_secs cfg registry
        world).world.disk =
      some (process_single_file env file duration_secs cfg registry
        world).registry := by
  have hex : (getKey world.fs existing_output).isSome = false := by
    rw [h4]; rfl
  have hpsf : process_single_file env file duration_secs cfg registry world =
      ⟨Except.ok StepResult.processed,
       register_hash registry file_hash
         { source_path := file.path, output_path := file.output_path,
           timestamp := env.now, status := "success",
           duration_audio_secs := duration_secs,
           timing := some result_data.timing, error := none },
       ⟨setKey world.fs file.output_path document,
        some (register_hash registry file_hash
          { source_path := file.path, output_path := file.output_path,
            timestamp := env.now, status := "success",
            duration_audio_secs := duration_secs,
            timing := some result_data.timing, error := none })⟩, 1⟩ := by
    simp only [process_single_file, h1, h2, h3, hex, Bool.false_eq_true,
      if_false, transcribeFresh, h5, h6, h7, h8]
  rw [hpsf]
  refine ⟨rfl, rfl, getKey_setKey_self _ _ _, ?_, rfl⟩
  simp only [register_hash]
  exact getKey_setKey_self _ _ _

/-- C10 witness: a concrete stale success entry (output missing on disk)
is reprocessed through the pipeline, and the entry is overwritten with
the new success outcome carrying the pipeline timing. -/
theorem stale_success_entry_reprocessed_witness :
    (process_single_file
        ⟨Except.ok "h0",
         Except.ok ⟨J.obj [("segments", J.arr [])], ⟨1, 2, 3, 4⟩⟩,
         none, none, none, Except.ok "h0", none, "t3"⟩
        ⟨"in/b.mp3", "b.mp3", "out/b.json", 5⟩ (some 9) ⟨"large-v2", "de"⟩
        [("h0", [("status", J.str "success"),
                 ("source_path", J.str "in/a.mp3"),
                 ("output_path", J.str "out/a.json")])]
        ⟨[], none⟩).pipeCalls = 1 ∧
    getKey (process_single_file
        ⟨Except.ok "h0",
         Except.ok ⟨J.obj [("segments", J.arr [])], ⟨1, 2, 3, 4⟩⟩,
         none, none, none, Except.ok "h0", none, "t3"⟩
        ⟨"in/b.mp3", "b.mp3", "out/b.json", 5⟩ (some 9) ⟨"large-v2", "de"⟩
        [("h0", [("status", J.str "success"),
                 ("source_path", J.str "in/a.mp3"),
                 ("output_path", J.str "out/a.json")])]
        ⟨[], none⟩).registry "h0" =
      some (RegistryEntry.asdict
        { source_path := "in/b.mp3", output_path := "out/b.json",
          timestamp := "t3", status := "success",
          duration_audio_secs := some 9,
          timing := some ⟨1, 2, 3, 4⟩, error := none }) :=
  ⟨(stale_success_entry_reprocessed
      ⟨Except.ok "h0",
       Except.ok ⟨J.obj [("segments", J.arr [])], ⟨1, 2, 3, 4⟩⟩,
       none, none, none, Except.ok "h0", none, "t3"⟩
      ⟨"in/b.mp3", "b.mp3", "out/b.json", 5⟩ (some 9) ⟨"large-v2", "de"⟩
      [("h0", [("status", J.str "success"),
               ("source_path", J.str "in/a.mp3"),
               ("output_path", J.str "out/a.json")])]
      ⟨[], none⟩ "h0"
      [("status", J.str "success"), ("source_path", J.str "in/a.mp3"),
       ("output_path", J.str "out/a.json")]
      "out/a.json" ⟨J.obj [("segments", J.arr [])], ⟨1, 2, 3, 4⟩⟩
      (J.obj [("segments", J.arr []), ("words", J.arr []),
        ("metadata", J.obj
          [("source_file", J.str "in/b.mp3"),
           ("file_hash", J.str "h0"),
           ("duration_secs", J.num 9),
           ("num_speakers", J.num 0),
           ("model_size", J.str "large-v2"),
           ("language", J.str "de"),
           ("processed_at", J.str "t3"),
           ("timing", J.obj
             [("transcribe_secs", J.num 1), ("align_secs", J.num 2),
              ("diarize_secs", J.num 3), ("total_secs", J.num 4)])])])
      rfl rfl rfl rfl rfl rfl rfl rfl).2.1,
   (stale_success_entry_reprocessed
      ⟨Except.ok "h0",
       Except.ok ⟨J.obj [("segments", J.arr [])], ⟨1, 2, 3, 4⟩⟩,
       none, none, none, Except.ok "h0", none, "t3"⟩
      ⟨"in/b.mp3", "b.mp3", "out/b.json", 5⟩ (some 9) ⟨"large-v2", "de"⟩
      [("h0", [("status", J.str "success"),
               ("source_path", J.str "in/a.mp3"),
               ("output_path", J.str "out/a.json")])]
      ⟨[], none⟩ "h0"
      [("status", J.str "success"), ("source_path", J.str "in/a.mp3"),
       ("output_path", J.str "out/a.json")]
      "out/a.json" ⟨J.obj [("segments", J.arr [])], ⟨1, 2, 3, 4⟩⟩
      (J.obj [("segments", J.arr []), ("words", J.arr []),
        ("metadata", J.obj
          [("source_file", J.str "in/b.mp3"),
           ("file_hash", J.str "h0"),
           ("duration_secs", J.num 9),
           ("num_speakers", J.num 0),
           ("model_size", J.str "large-v2"),
           ("language", J.str "de"),
           ("processed_at", J.str "t3"),
           ("timing", J.obj
             [("transcribe_secs", J.num 1), ("align_secs", J.num 2),
              ("diarize_secs", J.num 3), ("total_secs", J.num 4)])])])
      rfl rfl rfl rfl rfl rfl rfl rfl).2.2.2.1⟩

/-- C3: under `--retry-failed`, exactly the candidates that were
filtered out because their mirrored output exists and whose source path
has a `failed` registry entry are re-admitted, prepended to the pending
list, with the already-processed count reduced by the number re-admitted;
every re-admitted candidate indeed has an existing output and a failed
source, this is the only way a candidate with existing output is in the
pending list, and without the flag the pending list never contains a
candidate whose output exists (cli.py lines 188-196, 219-236;
scanner.py lines 54-56). -/
theorem retry_failed_scope (registry : Registry) (fs : List (String × J))
    (all_files : List AudioFile) :
    ((computePending true registry fs all_files).pending =
        retryCandidates registry fs all_files ++
          filter_already_processed fs all_files) ∧
    ((computePending true registry fs all_files).skipped_existing =
        (all_files.length : Int) -
          (filter_already_processed fs all_files).length -
          (retryCandidates registry fs all_files).length) ∧
    (∀ f, f ∈ retryCandidates registry fs all_files ↔
        (f ∈ all_files ∧ (getKey fs f.output_path).isSome = true ∧
         f.path ∈ _get_failed_hashes registry)) ∧
    ((computePending false registry fs all_files).pending =
        filter_already_processed fs all_files) ∧
    (∀ f ∈ filter_already_processed fs all_files,
        getKey fs f.output_path = none) ∧
    (∀ f ∈ (computePending true registry fs all_files).pending,
        (getKey fs f.output_path).isSome = true →
        f ∈ retryCandidates registry fs all_files) := by
  have hmem : ∀ f, f ∈ retryCandidates registry fs all_files ↔
      (f ∈ all_files ∧ (getKey fs f.output_path).isSome = true ∧
       f.path ∈ _get_failed_hashes registry) := by
    intro f
    simp only [retryCandidates, List.mem_filter, decide_eq_true_eq]
    constructor
    · rintro ⟨⟨hf, hnp⟩, hfp⟩
      refine ⟨hf, ?_, hfp⟩
      cases hb : (getKey fs f.output_path).isSome
      · exfalso
        apply hnp
        simp only [filter_already_processed, List.mem_filter]
        exact ⟨hf, by rw [hb]; rfl⟩
      · rfl
    · rintro ⟨hf, hex, hfp⟩
      refine ⟨⟨hf, ?_⟩, hfp⟩
      intro hmem'
      simp only [filter_already_processed, List.mem_filter] at hmem'
      simp [hex] at hmem'
  have hc5 : ∀ f ∈ filter_already_processed fs all_files,
      getKey fs f.output_path = none := by
    intro f hf
    simp only [filter_already_processed, List.mem_filter] at hf
    cases hk : getKey fs f.output_path with
    | none => rfl
    | some v => simp [hk] at hf
  have hc1 : (computePending true registry fs all_files).pending =
      retryCandidates registry fs all_files ++
        filter_already_processed fs all_files := by
    by_cases hfe : (_get_failed_hashes registry).isEmpty = true
    · have hfnil := List.isEmpty_iff.mp hfe
      have hrc : retryCandidates registry fs all_files = [] := by
        simp [retryCandidates, hfnil]
      simp [computePending, hfe, hrc]
    · by_cases hre : (retryCandidates registry fs all_files).isEmpty = true
      · have hrc := List.isEmpty_iff.mp hre
        simp [computePending, hfe, hre, hrc]
      · simp [computePending, hfe, hre]
  have hc2 : (computePending true registry fs all_files).skipped_existing =
      (all_files.length : Int) -
        (filter_already_processed fs all_files).length -
        (retryCandidates registry fs all_files).length := by
    by_cases hfe : (_get_failed_hashes registry).isEmpty = true
    · have hfnil := List.isEmpty_iff.mp hfe
      have hrc : retryCandidates registry fs all_files = [] := by
        simp [retryCandidates, hfnil]
      simp [computePending, hfe, hrc]
    · by_cases hre : (retryCandidates registry fs all_files).isEmpty = true
      · have hrc := List.isEmpty_iff.mp hre
        simp [computePending, hfe, hre, hrc]
      · simp [computePending, hfe, hre]
  refine ⟨hc1, hc2, hmem, by simp [computePending], hc5, ?_⟩
  intro f hfp hex
  rw [hc1] at hfp
  rcases List.mem_append.mp hfp with h | h
  · exact h
  · exfalso
    rw [hc5 f h] at hex
    exact Bool.noConfusion hex

/-- C3 witness: a candidate whose output exists and whose source has a
`failed` registry entry is re-admitted to the pending list under
`--retry-failed`. -/
theorem retry_failed_scope_witness :
    (⟨"in/a.mp3", "a.mp3", "out/a.json", 5⟩ : AudioFile) ∈
      (computePending true
        [("h0", [("status", J.str "failed"),
                 ("source_path", J.str "in/a.mp3")])]
        [("out/a.json", J.obj [])]
        [⟨"in/a.mp3", "a.mp3", "out/a.json", 5⟩]).pending := by
  have h := retry_failed_scope
    [("h0", [("status", J.str "failed"),
             ("source_path", J.str "in/a.mp3")])]
    [("out/a.json", J.obj [])]
    [⟨"in/a.mp3", "a.mp3", "out/a.json", 5⟩]
  rw [h.1]
  exact List.mem_append.mpr (Or.inl ((h.2.2.1
    ⟨"in/a.mp3", "a.mp3", "out/a.json", 5⟩).mpr
    ⟨by decide, rfl, by decide⟩))

end Transskribo
